import Mathlib

/-!
Shallow embedding of the forecasting-and-exceedance engine in
`scripts/forecast_power.py` and `scripts/forecast_multivariate.py`.
Dates are modelled as integers (days since an arbitrary epoch); real
values are modelled as rationals with exact arithmetic.
-/

/-- Arithmetic mean of a list, as computed by `numpy.mean` / `Series.mean`
on a clean (no-missing) array.  The empty list yields `0` (division by
zero in `ℚ`), matching the fact that the code never compares an empty
mean against a bound successfully (`NaN > c` is `False` in numpy). -/
def listMean (xs : List ℚ) : ℚ := xs.sum / (xs.length : ℚ)

/-- Sample variance with `ddof=1`, as in `np.var(values, ddof=1)`. -/
def sampleVar (xs : List ℚ) : ℚ :=
  ((xs.map (fun x => (x - listMean xs) ^ 2)).sum) / ((xs.length : ℚ) - 1)

/-- `np.percentile(a, q)` with the default linear interpolation:
sort ascending, take position `h = (n-1)·q/100` and interpolate between
the two neighbouring order statistics. -/
def percentile (xs : List ℚ) (q : ℚ) : ℚ :=
  let s := List.insertionSort (· ≤ ·) xs
  let h : ℚ := ((xs.length : ℚ) - 1) * q / 100
  let a := s.getD (Int.toNat ⌊h⌋) 0
  let b := s.getD (Int.toNat ⌈h⌉) 0
  a + (h - (⌊h⌋ : ℚ)) * (b - a)

/-- `sorted(a, reverse=True)[:5]` — the five largest values. -/
def top5 (xs : List ℚ) : List ℚ :=
  (List.insertionSort (fun a b => b ≤ a) xs).take 5

/-- The statistics dictionary built by `hist_stats_from_array`. -/
structure HistStats where
  count : Nat
  median : ℚ
  p25 : ℚ
  p75 : ℚ
  top : List ℚ
  deriving DecidableEq, Repr

/-- `hist_stats_from_array` from `forecast_power.py`: `None` on an empty
sample, otherwise count / median / 25th / 75th percentile / top-5. -/
def hist_stats_from_array (arr : List ℚ) : Option HistStats :=
  if arr.isEmpty then none
  else some ⟨arr.length, percentile arr 50, percentile arr 25, percentile arr 75, top5 arr⟩

/-- `rain_score` from `forecast_power.py` (the `mm is None` guard is
handled by the caller; here `mm` is a present value). -/
def rain_score (mm : ℚ) : ℚ :=
  if mm ≤ 0 then 0
  else if mm < 1 then 15
  else if mm < 5 then 40 + (mm - 1) / 4 * 30
  else if mm < 20 then 70 + (mm - 5) / 15 * 30
  else 100

/-- Python 3 `round`: round half to even (banker's rounding); away from
a tie it agrees with rounding to the nearest integer. -/
def pyRound (x : ℚ) : ℤ :=
  if x - (⌊x⌋ : ℚ) = 1 / 2 then (if ⌊x⌋ % 2 = 0 then ⌊x⌋ else ⌊x⌋ + 1)
  else round x

/-- `score = int(round(rain_score(mm)))` from `forecast_power.py`. -/
def climate_risk_score (mm : ℚ) : ℤ := pyRound (rain_score mm)

/-- The risk label chain from `forecast_power.py`:
`score >= 70 → High; score >= 40 → Medium; else Low`. -/
def risk_label (score : ℤ) : String :=
  if score ≥ 70 then "High Risk"
  else if score ≥ 40 then "Medium Risk"
  else "Low Risk"

/-! ### Forecast paths (C1) -/

/-- A row of the forecast table: date, mean, lower, upper. -/
structure ForecastPoint where
  date : ℤ
  mean : ℚ
  lower : ℚ
  upper : ℚ
  deriving DecidableEq, Repr

/-- `pd.date_range(start=start_date, periods=steps, freq='D')`. -/
def dateRange (start : ℤ) (periods : Nat) : List ℤ :=
  (List.range periods).map (fun (i : Nat) => start + (i : ℤ))

/-- `forecast_sarimax` from `forecast_power.py`: the model's `steps`-step
mean forecast and 95% confidence bounds, indexed by a fresh daily date
range starting at `start_date`.  The model's per-step outputs are the
abstract functions `predMean`, `predLower`, `predUpper`. -/
def forecast_sarimax (predMean predLower predUpper : Nat → ℚ)
    (startDate : ℤ) (steps : Nat) : List ForecastPoint :=
  (List.range steps).map (fun (i : Nat) => ⟨startDate + (i : ℤ), predMean i, predLower i, predUpper i⟩)

/-- Prophet's `make_future_dataframe(periods, include_history=True)`:
the historical dates followed by `periods` fresh daily dates after the
last historical date. -/
def make_future_dates (histDates : List ℤ) (lastDate : ℤ) (periods : Nat) : List ℤ :=
  histDates ++ (List.range periods).map (fun (i : Nat) => lastDate + 1 + (i : ℤ))

/-- The date index of `forecast_prophet`'s result in `forecast_power.py`:
the prediction frame covers history plus `steps` future days, and is then
sliced with `.loc[start_date : start_date + Timedelta(days=steps-1)]`. -/
def forecast_prophet_dates (histDates : List ℤ) (lastDate : ℤ)
    (startDate : ℤ) (steps : Nat) : List ℤ :=
  (make_future_dates histDates lastDate steps).filter
    (fun d => startDate ≤ d ∧ d ≤ startDate + (steps : ℤ) - 1)

/-! ### Iterative multivariate forecast (`forecast_multivariate.py`) -/

/-- One lag lookup inside `iterative_forecast`:
`vals[-lag] if len(vals) >= lag else vals[0]`. -/
def lagValue (vals : List ℚ) (lag : Nat) : ℚ :=
  if lag ≤ vals.length then vals.getD (vals.length - lag) 0 else vals.headD 0

/-- The feature row built at each step of `iterative_forecast`: for each
column its lags `1..lags` in order, then each column's current value
(`vals[-1]`), matching the `create_lag_features` column order. -/
def featureVector (cols : List (List ℚ)) (lags : Nat) : List ℚ :=
  (cols.flatMap (fun vals => (List.range lags).map (fun k => lagValue vals (k + 1)))) ++
    cols.map (fun vals => vals.getLastD 0)

/-- The history row appended after each prediction: the target column
takes the predicted value, every other column repeats its last observed
value (persistence). -/
def appendRow (cols : List (List ℚ)) (targetIdx : Nat) (ypred : ℚ) : List (List ℚ) :=
  cols.enum.map (fun p => if p.1 = targetIdx then p.2 ++ [ypred] else p.2 ++ [p.2.getLastD 0])

/-- The loop body of `iterative_forecast`, recursing on the remaining
number of days; `step` is the 1-based step counter of the source loop. -/
def iterGo (model : List ℚ → ℚ) (targetIdx : Nat) (lastDate : ℤ) (lags : Nat) :
    List (List ℚ) → Nat → Nat → List (ℤ × ℚ)
  | _, _, 0 => []
  | cols, step, rem + 1 =>
    let y := model (featureVector cols lags)
    (lastDate + (step : ℤ), y) ::
      iterGo model targetIdx lastDate lags (appendRow cols targetIdx y) (step + 1) rem

/-- `iterative_forecast` from `forecast_multivariate.py`: starting from
the historical columns, predict one day at a time for `forecastDays`
days, appending each prediction to the history. -/
def iterative_forecast (model : List ℚ → ℚ) (cols : List (List ℚ))
    (targetIdx : Nat) (lastDate : ℤ) (forecastDays lags : Nat) : List (ℤ × ℚ) :=
  iterGo model targetIdx lastDate lags cols 1 forecastDays

/-! ### Monte-Carlo exceedance simulation (C2, C3) -/

/-- The 0/1 value of one cell of `sim_matrix > threshold`. -/
def exceedIndicator (T x : ℚ) : ℚ := if T < x then 1 else 0

/-- `sim_exceed.mean(axis=1)` for one forecast day's row of samples. -/
def probPerDay (T : ℚ) (row : List ℚ) : ℚ :=
  listMean (row.map (exceedIndicator T))

/-- `float(sim_exceed.mean())`: mean of the boolean matrix over all
day × sample cells. -/
def overallProbOf (T : ℚ) (sims : List (List ℚ)) : ℚ :=
  listMean (sims.flatten.map (exceedIndicator T))

/-- The guard in `forecast_power.py` `main`: the pooled probability is
computed only when the forecast frame is non-empty, otherwise the run
reports `float('nan')` (modelled as `none`). -/
def overall_prob_guarded (T : ℚ) (sims : List (List ℚ)) : Option ℚ :=
  if sims.length > 0 then some (overallProbOf T sims) else none

/-- `np.random.normal(loc, scale)` for one cell, given the standard
normal variate `z` produced by the ambient generator state. -/
def normalDraw (z loc scale : ℚ) : ℚ := loc + scale * z

/-- The simulation matrix of `forecast_power.py` `main` (and
`simulate_uncertainty`): cell `(i, j)` is `means[i] + stds[i] · z` where
`z` is the next variate of the process-wide default numpy generator —
the code never seeds it, so the draws depend on the ambient stream
`stream`, not only on the inputs. -/
def simMatrixGlobal (stream : Nat → ℚ) (means stds : List ℚ) (N : Nat) :
    List (List ℚ) :=
  (means.zip stds).enum.map
    (fun p => (List.range N).map (fun j => normalDraw (stream (p.1 * N + j)) p.2.1 p.2.2))

/-- Pooled exceedance probability of one run, as a function of the
ambient (unseeded) generator stream and the run's inputs. -/
def overall_prob_unseeded (stream : Nat → ℚ) (means stds : List ℚ)
    (N : Nat) (T : ℚ) : ℚ :=
  overallProbOf T (simMatrixGlobal stream means stds N)

/-! ### Sentinel missing-value handling (C4) -/

/-- The sentinel conversion applied on every value of the univariate
fetch path (`fetch_power_point` / `fetch_power_point_multi` in
`forecast_power.py`): a parsed value `v ≤ -900` becomes missing. -/
def sentinel_clean (v : ℚ) : Option ℚ :=
  if v ≤ -900 then none else some v

/-- The value rows of `fetch_power_point`'s JSON path: each parsed
value is passed through the sentinel conversion. -/
def fetch_power_point_values (raw : List (ℤ × ℚ)) : List (ℤ × Option ℚ) :=
  raw.map (fun p => (p.1, sentinel_clean p.2))

/-- The per-parameter column extraction of `fetch_power_csv` in
`forecast_multivariate.py`: if a matching CSV column exists its values
are copied verbatim (`result[p] = df[col].values`) with **no** sentinel
conversion; otherwise the column is all-missing (`np.nan`). -/
def fetch_power_csv_values (colValues : Option (List ℚ)) (nRows : Nat) :
    List (Option ℚ) :=
  match colValues with
  | some vs => vs.map some
  | none => List.replicate nRows none

/-- Forward fill with a carried last-seen value (`fillna(method='ffill')`). -/
def ffillGo : Option ℚ → List (Option ℚ) → List (Option ℚ)
  | _, [] => []
  | carry, none :: rest => carry :: ffillGo carry rest
  | _, some v :: rest => some v :: ffillGo (some v) rest

/-- `df.fillna(method='ffill')` on one column. -/
def ffill (xs : List (Option ℚ)) : List (Option ℚ) := ffillGo none xs

/-- `df.fillna(method='bfill')` on one column. -/
def bfill (xs : List (Option ℚ)) : List (Option ℚ) := (ffill xs.reverse).reverse

/-- The series preparation in `forecast_multivariate.py` `main` after the
fetch: `df.fillna(method='ffill').fillna(method='bfill')`. -/
def multivariate_prepared (xs : List (Option ℚ)) : List (Option ℚ) :=
  bfill (ffill xs)

/-! ### Model-fitting fallback chain (C5) -/

/-- The (p,d,q) order together with the seasonal (P,D,Q,m) order. -/
structure ArimaSpec where
  order : Nat × Nat × Nat
  seasonal : Nat × Nat × Nat × Nat
  deriving DecidableEq, Repr

/-- The fixed default of `fit_sarimax`: order `(1,0,0)`, no seasonal
terms. -/
def default_arima_spec : ArimaSpec := ⟨(1, 0, 0), (0, 0, 0, 0)⟩

/-- The seasonal period chosen by `fit_sarimax`:
`m = 365 if len(series) > 365*2 else 7`. -/
def seasonal_m (n : Nat) : Nat := if n > 365 * 2 then 365 else 7

/-- Order selection in `fit_sarimax`: the automatic search runs only
when `pmdarima` is available; `autoResult = none` models the search
raising (the `except: pass` keeps the defaults). -/
def chosen_spec (pmAvailable : Bool) (autoResult : Option ArimaSpec) : ArimaSpec :=
  if pmAvailable then autoResult.getD default_arima_spec else default_arima_spec

/-- `fit_sarimax` as a whole: raises (`none`) when statsmodels' SARIMAX
is unavailable, otherwise fits the chosen spec; `fitResult` models the
outcome of `SARIMAX(...).fit()` for a given spec (`none` = raises). -/
def fit_sarimax_model {μ : Type} (sarimaxAvailable : Bool) (pmAvailable : Bool)
    (autoResult : Option ArimaSpec) (fitResult : ArimaSpec → Option μ) : Option μ :=
  if sarimaxAvailable then fitResult (chosen_spec pmAvailable autoResult) else none

/-- Which strategy produced the run's forecast. -/
inductive ForecastSource where
  | sarimax
  | prophet
  deriving DecidableEq, Repr

/-- The fallback chain of `forecast_power.py` `main`: use the SARIMAX fit
when it succeeded; on failure fall back to Prophet when available
(`prophetFit = none` models `forecast_prophet` raising); `none` is the
fatal outcome (`sys.exit(1)` or an uncaught exception), producing no
forecast. -/
def model_fallback_chain {μ φ : Type} (sarimaxFit : Option μ)
    (prophetAvailable : Bool) (prophetFit : Option φ) : Option ForecastSource :=
  match sarimaxFit with
  | some _ => some .sarimax
  | none =>
    if prophetAvailable then
      match prophetFit with
      | some _ => some .prophet
      | none => none
    else none

/-! ### Climatology shrinkage pipeline (C7, C8, C9) -/

/-- The clamp in `forecast_power.py` `main`: `max(0.3, min(0.9, w))`. -/
def clamp_weight (x : ℚ) : ℚ := max (3 / 10) (min (9 / 10) x)

/-- The prior weight of `main`: defined only when both the recent
(forecast) variance and the climatology prior variance are present and
positive, as `clamp(v_f / (v_f + v_p), 0.3, 0.9)`. -/
def weight_prior (recentVar priorVar : Option ℚ) : Option ℚ :=
  match recentVar, priorVar with
  | some vf, some vp =>
    if 0 < vf ∧ 0 < vp then some (clamp_weight (vf / (vf + vp))) else none
  | _, _ => none

/-- `compute_shrunk` from `forecast_power.py`: Bayesian posterior mean
with variances defaulted to `1.0` when missing or non-positive; degrades
to whichever of forecast / prior is available. -/
def compute_shrunk (forecastVal forecastVar priorMean priorVar : Option ℚ) : Option ℚ :=
  match forecastVal, priorMean with
  | none, none => none
  | none, some p => some p
  | some f, none => some f
  | some f, some p =>
    let fv := match forecastVar with
      | some v => if 0 < v then v else 1
      | none => 1
    let pv := match priorVar with
      | some v => if 0 < v then v else 1
      | none => 1
    some ((f / fv + p / pv) / (1 / fv + 1 / pv))

/-- The adjusted precipitation of `main` (lines around the `weight_prior`
computation): when the clamped weight and a prior mean exist, blend
`w·p + (1−w)·f`; otherwise fall back to `compute_shrunk`; finally floor
the result at `0`.  The whole block runs only when a raw forecast
exists. -/
def adjusted_prec_of (forecastPrec recentVar priorMean priorVar : Option ℚ) : Option ℚ :=
  match forecastPrec with
  | none => none
  | some f =>
    let raw :=
      match weight_prior recentVar priorVar, priorMean with
      | some w, some p => some (w * p + (1 - w) * f)
      | _, _ => compute_shrunk (some f) recentVar priorMean priorVar
    match raw with
    | some a => some (if a < 0 then 0 else a)
    | none => none

/-- `hist_avg_prec` in `main`: the mean of the day-window sample when
non-empty, else the full-series mean when the series is non-empty, else
missing. -/
def hist_avg_prec_of (precSample dfPrec : List ℚ) : Option ℚ :=
  if precSample.length ≠ 0 then some (listMean precSample)
  else if dfPrec.length ≠ 0 then some (listMean dfPrec)
  else none

/-- `df['value'].tail(k)`: the last `k` rows (all rows when fewer). -/
def tailK (xs : List ℚ) (k : Nat) : List ℚ := xs.drop (xs.length - k)

/-- `forecast_prec` in `main`: the mean of the last 7 observed values
when the series is non-empty, else missing. -/
def forecast_prec_of (dfPrec : List ℚ) : Option ℚ :=
  if dfPrec.length ≠ 0 then some (listMean (tailK dfPrec 7)) else none

/-- `recent_prec_var` in `main`: the `ddof=1` sample variance of the last
14 values, requiring at least 2 values. -/
def recent_prec_var_of (dfPrec : List ℚ) : Option ℚ :=
  if dfPrec.length ≥ 2 then
    (if (tailK dfPrec 14).length ≥ 2 then some (sampleVar (tailK dfPrec 14)) else none)
  else none

/-- `prior_prec_var` in `main`: sample variance of the day-window sample
when it has more than one point; else the IQR approximation
`(IQR/1.349)²` (or `1.0` on a degenerate IQR) when statistics exist;
else missing. -/
def prior_prec_var_of (precSample : List ℚ) (stats : Option HistStats) : Option ℚ :=
  if precSample.length > 1 then some (sampleVar precSample)
  else
    match stats with
    | some st =>
      some (if 0 < st.p75 - st.p25 then ((st.p75 - st.p25) / (1349 / 1000)) ^ 2 else 1)
    | none => none

/-- `prior_mean_prec` in `main`: the day-window median when statistics
exist, else the historical average when available. -/
def prior_mean_prec_of (stats : Option HistStats) (histAvg : Option ℚ) : Option ℚ :=
  match stats with
  | some st => some st.median
  | none => histAvg

/-- The precipitation-adjustment chain of `main`, end to end, as a
function of the climatology day-window sample and the full cleaned
precipitation series. -/
def adjusted_prec_pipeline (precSample dfPrec : List ℚ) : Option ℚ :=
  let stats := hist_stats_from_array precSample
  adjusted_prec_of (forecast_prec_of dfPrec) (recent_prec_var_of dfPrec)
    (prior_mean_prec_of stats (hist_avg_prec_of precSample dfPrec))
    (prior_prec_var_of precSample stats)

/-- `base_prec` in `main`'s display step: the adjusted value when
present, else the raw forecast. -/
def base_prec_of (adjusted forecast : Option ℚ) : Option ℚ :=
  match adjusted with
  | some a => some a
  | none => forecast

/-- The display-precipitation step of `main`: clamp the base value into
`[min(p25,p75), max(p25,p75)]` when the quantiles exist; else into
`[0, hist_avg]` when only the average exists (the median is absent
exactly when the statistics are); else just floor at `0`; in all cases
the final `max(0.0, ·)` applies. -/
def display_prec_of (basePrec : Option ℚ) (statsPrec : Option HistStats)
    (histAvgPrec : Option ℚ) : Option ℚ :=
  match basePrec with
  | none => none
  | some bp =>
    match statsPrec with
    | some st =>
      some (max 0 (min (max bp (min st.p25 st.p75)) (max st.p25 st.p75)))
    | none =>
      match histAvgPrec with
      | some avg => some (max 0 (min (max bp 0) avg))
      | none => some (max 0 bp)

/-! ### Kelvin-to-Celsius heuristic (C10) -/

/-- The unit heuristic in `forecast_power.py` `main`: after dropping
missing values, if the series mean exceeds 200 subtract exactly 273.15
from every value, else leave the series unchanged. -/
def kelvin_adjust (xs : List ℚ) : List ℚ :=
  if 200 < listMean xs then xs.map (fun v => v - 27315 / 100) else xs

/-! ## Theorems -/

/-- Helper: `risk_label` reads "High Risk" exactly on scores `≥ 70`. -/
theorem risk_label_high_iff (s : ℤ) : risk_label s = "High Risk" ↔ 70 ≤ s := by
  unfold risk_label
  split_ifs with h1 h2
  · exact iff_of_true rfl h1
  · exact iff_of_false (by decide) h1
  · exact iff_of_false (by decide) h1

/-- Helper: `risk_label` reads "Medium Risk" exactly on scores in `[40, 70)`. -/
theorem risk_label_medium_iff (s : ℤ) :
    risk_label s = "Medium Risk" ↔ 40 ≤ s ∧ s < 70 := by
  unfold risk_label
  split_ifs with h1 h2
  · exact iff_of_false (by decide) (by omega)
  · exact iff_of_true rfl (by omega)
  · exact iff_of_false (by decide) (by omega)

/-- Helper: `risk_label` reads "Low Risk" exactly on scores `< 40`. -/
theorem risk_label_low_iff (s : ℤ) : risk_label s = "Low Risk" ↔ s < 40 := by
  unfold risk_label
  split_ifs with h1 h2
  · exact iff_of_false (by decide) (by omega)
  · exact iff_of_false (by decide) (by omega)
  · exact iff_of_true rfl (by omega)

/-- C6: the rain risk score is the stated piecewise map — 0 for `mm ≤ 0`,
15 on `(0,1)`, `40 + (mm−1)/4·30` on `[1,5)`, `70 + (mm−5)/15·30` on
`[5,20)`, 100 for `mm ≥ 20` — and the label is "High Risk" iff the
rounded integer score is `≥ 70`, "Medium Risk" iff it is in `[40,70)`,
else "Low Risk"; in particular `mm = 0.5` scores 15 ("Low Risk"),
`mm = 3` scores between 40 and 70 ("Medium Risk"), and `mm = 25` scores
100 ("High Risk"). -/
theorem rain_score_piecewise (mm : ℚ) :
    (mm ≤ 0 → rain_score mm = 0) ∧
    (0 < mm → mm < 1 → rain_score mm = 15) ∧
    (1 ≤ mm → mm < 5 → rain_score mm = 40 + (mm - 1) / 4 * 30) ∧
    (5 ≤ mm → mm < 20 → rain_score mm = 70 + (mm - 5) / 15 * 30) ∧
    (20 ≤ mm → rain_score mm = 100) ∧
    (risk_label (climate_risk_score mm) = "High Risk" ↔ 70 ≤ climate_risk_score mm) ∧
    (risk_label (climate_risk_score mm) = "Medium Risk" ↔
      40 ≤ climate_risk_score mm ∧ climate_risk_score mm < 70) ∧
    (risk_label (climate_risk_score mm) = "Low Risk" ↔ climate_risk_score mm < 40) ∧
    rain_score (1 / 2) = 15 ∧ risk_label (climate_risk_score (1 / 2)) = "Low Risk" ∧
    (40 ≤ climate_risk_score 3 ∧ climate_risk_score 3 < 70) ∧
    risk_label (climate_risk_score 3) = "Medium Risk" ∧
    rain_score 25 = 100 ∧ risk_label (climate_risk_score 25) = "High Risk" := by
  refine ⟨?_, ?_, ?_, ?_, ?_, risk_label_high_iff _, risk_label_medium_iff _,
    risk_label_low_iff _, ?_, ?_, ?_, ?_, ?_, ?_⟩
  · intro h; unfold rain_score; split_ifs <;> first | rfl | linarith
  · intro h1 h2; unfold rain_score; split_ifs <;> first | rfl | linarith
  · intro h1 h2; unfold rain_score; split_ifs <;> first | rfl | linarith
  · intro h1 h2; unfold rain_score; split_ifs <;> first | rfl | linarith
  · intro h; unfold rain_score; split_ifs <;> first | rfl | linarith
  · norm_num [rain_score]
  · norm_num [risk_label, climate_risk_score, pyRound, rain_score]
  · norm_num [climate_risk_score, pyRound, rain_score]
  · norm_num [risk_label, climate_risk_score, pyRound, rain_score]
  · norm_num [rain_score]
  · norm_num [risk_label, climate_risk_score, pyRound, rain_score]

/-- Witness for C6: the theorem applied at `mm = 3`, discharging the
interval hypotheses there. -/
theorem rain_score_piecewise_witness :
    (1 : ℚ) ≤ 3 ∧ (3 : ℚ) < 5 ∧ rain_score 3 = 40 + (3 - 1) / 4 * 30 :=
  ⟨by norm_num, by norm_num,
    (rain_score_piecewise 3).2.2.1 (by norm_num) (by norm_num)⟩

/-- C10: after dropping missing values, if the series mean exceeds 200
then exactly 273.15 is subtracted from every value before any further
computation, and otherwise the series passes through unchanged. -/
theorem kelvin_heuristic (xs : List ℚ) :
    (kelvin_adjust xs).length = xs.length ∧
    (200 < xs.sum / (xs.length : ℚ) → kelvin_adjust xs = xs.map (fun v => v - 27315 / 100)) ∧
    (¬ 200 < xs.sum / (xs.length : ℚ) → kelvin_adjust xs = xs) ∧
    ∀ i, i < xs.length →
      (kelvin_adjust xs).getD i 0 =
        (if 200 < xs.sum / (xs.length : ℚ) then xs.getD i 0 - 27315 / 100 else xs.getD i 0) := by
  unfold kelvin_adjust listMean
  refine ⟨?_, ?_, ?_, ?_⟩
  · split <;> simp
  · intro h; rw [if_pos h]
  · intro h; rw [if_neg h]
  · intro i hi
    split
    · rw [List.getD_eq_getElem?_getD, List.getD_eq_getElem?_getD, List.getElem?_map,
        List.getElem?_eq_getElem hi]
      rfl
    · rfl

/-- Witness for C10: the theorem applied to the series `[300, 302]`
(mean 301 > 200), checking the first element is shifted by 273.15. -/
theorem kelvin_heuristic_witness :
    (200 : ℚ) < ([(300 : ℚ), 302].sum / (([(300 : ℚ), 302].length : ℕ) : ℚ)) ∧
    kelvin_adjust [300, 302] = [300, 302].map (fun v => v - 27315 / 100) :=
  ⟨by norm_num, (kelvin_heuristic [300, 302]).2.1 (by norm_num)⟩

/-- C5: the fitting chain — `fit_sarimax` uses seasonal period 365 when
the history has more than 730 points, else 7; on failure of the
automatic order search (or when `pmdarima` is absent) it keeps the fixed
default order `(1,0,0)` with no seasonal terms; raising when SARIMAX is
unavailable; `main` falls back to Prophet exactly when the SARIMAX fit
raised and Prophet is importable, and the run is fatal (no forecast)
precisely when every strategy fails or is unavailable. -/
theorem fit_fallback_chain {μ φ : Type} (n : Nat) (pmAvailable : Bool)
    (autoResult : Option ArimaSpec) (fitResult : ArimaSpec → Option μ)
    (sarimaxFit : Option μ) (prophetAvailable : Bool) (prophetFit : Option φ) :
    (365 * 2 < n → seasonal_m n = 365) ∧
    (n ≤ 365 * 2 → seasonal_m n = 7) ∧
    (autoResult = none → chosen_spec pmAvailable autoResult = ⟨(1, 0, 0), (0, 0, 0, 0)⟩) ∧
    chosen_spec false autoResult = default_arima_spec ∧
    fit_sarimax_model false pmAvailable autoResult fitResult = (none : Option μ) ∧
    (∀ m : μ, sarimaxFit = some m →
      model_fallback_chain sarimaxFit prophetAvailable prophetFit = some ForecastSource.sarimax) ∧
    (sarimaxFit = none → prophetAvailable = true → ∀ f : φ, prophetFit = some f →
      model_fallback_chain sarimaxFit prophetAvailable prophetFit = some ForecastSource.prophet) ∧
    (model_fallback_chain sarimaxFit prophetAvailable prophetFit = none ↔
      sarimaxFit = none ∧ (prophetAvailable = false ∨ prophetFit = none)) := by
  refine ⟨?_, ?_, ?_, ?_, ?_, ?_, ?_, ?_⟩
  · intro h; unfold seasonal_m; rw [if_pos h]
  · intro h; unfold seasonal_m; rw [if_neg (by omega)]
  · intro h; cases h; cases pmAvailable <;> rfl
  · rfl
  · rfl
  · intro m hm; cases hm; rfl
  · intro hs hp f hf; cases hs; cases hf; cases hp; rfl
  · cases sarimaxFit <;> cases prophetFit <;> cases prophetAvailable <;>
      simp [model_fallback_chain]

/-- Witness for C5: the theorem applied with a 800-point history,
`pmdarima` present but its search failing, the SARIMAX fit raising, and
Prophet available and succeeding. -/
theorem fit_fallback_chain_witness :
    seasonal_m 800 = 365 ∧
    chosen_spec true none = ⟨(1, 0, 0), (0, 0, 0, 0)⟩ ∧
    model_fallback_chain (none : Option Unit) true (some ()) = some ForecastSource.prophet := by
  refine ⟨?_, ?_, ?_⟩
  · exact (@fit_fallback_chain Unit Unit 800 true none (fun _ => none) none true
      (some ())).1 (by norm_num)
  · exact (@fit_fallback_chain Unit Unit 800 true none (fun _ => none) none true
      (some ())).2.2.1 rfl
  · exact (@fit_fallback_chain Unit Unit 800 true none (fun _ => none) none true
      (some ())).2.2.2.2.2.2.1 rfl rfl () rfl

/-- C4 (code bug): the univariate fetch converts the provider sentinel
`-999` to missing, but `fetch_power_csv` on the multivariate path copies
the CSV column verbatim, so `-999` survives the forward/backward fill
and enters the feature table as a valid number. -/
theorem multivariate_sentinel_not_cleaned :
    sentinel_clean (-999) = none ∧
    fetch_power_point_values [(0, -999)] = [(0, none)] ∧
    fetch_power_csv_values (some [20, -999, 21]) 3 = [some 20, some (-999), some 21] ∧
    multivariate_prepared (fetch_power_csv_values (some [20, -999, 21]) 3) =
      [some 20, some (-999), some 21] ∧
    some (-999 : ℚ) ∈ multivariate_prepared (fetch_power_csv_values (some [20, -999, 21]) 3) := by
  refine ⟨?_, ?_, rfl, rfl, ?_⟩
  · norm_num [sentinel_clean]
  · norm_num [fetch_power_point_values, sentinel_clean]
  · show some (-999 : ℚ) ∈ [some (20 : ℚ), some (-999), some 21]
    simp

/-- C3 (code bug): the Monte-Carlo sampling reads the process-wide
default numpy generator, which is never seeded; with identical inputs
(`means = [0]`, `stds = [1]`, `N = 1`, threshold `1/2`) two ambient
generator states give different pooled exceedance probabilities, so the
simulated probabilities are not a function of the inputs and a
configured seed. -/
theorem unseeded_simulation_nondeterministic :
    overall_prob_unseeded (fun _ => 0) [0] [1] 1 (1 / 2) = 0 ∧
    overall_prob_unseeded (fun _ => 1) [0] [1] 1 (1 / 2) = 1 ∧
    overall_prob_unseeded (fun _ => 0) [0] [1] 1 (1 / 2) ≠
      overall_prob_unseeded (fun _ => 1) [0] [1] 1 (1 / 2) := by
  refine ⟨?_, ?_, ?_⟩ <;>
    norm_num [overall_prob_unseeded, simMatrixGlobal, overallProbOf, listMean,
      normalDraw, exceedIndicator, List.enum]

/-- Helper: the sum of the 0/1 exceedance indicators over a row is the
count of samples above the threshold. -/
theorem sum_exceedIndicator (T : ℚ) (row : List ℚ) :
    (row.map (exceedIndicator T)).sum = (row.countP (fun x => decide (T < x)) : ℚ) := by
  induction row with
  | nil => simp
  | cons a l ih =>
    rw [List.map_cons, List.sum_cons, ih, List.countP_cons]
    unfold exceedIndicator
    by_cases h : T < a <;> simp [h] <;> push_cast <;> ring

/-- Helper: the mean of a list of values in `[0,1]` lies in `[0,1]`
(the empty mean is `0` by the division-by-zero convention). -/
theorem listMean_mem_unit (xs : List ℚ) (h : ∀ x ∈ xs, 0 ≤ x ∧ x ≤ 1) :
    0 ≤ listMean xs ∧ listMean xs ≤ 1 := by
  unfold listMean
  rcases eq_or_ne xs [] with rfl | hne
  · norm_num
  · have hlen : (0 : ℚ) < (xs.length : ℚ) := by
      have := List.length_pos.mpr hne
      exact_mod_cast this
    constructor
    · exact div_nonneg (List.sum_nonneg fun x hx => (h x hx).1) hlen.le
    · rw [div_le_one hlen]
      have := List.sum_le_card_nsmul xs 1 fun x hx => (h x hx).2
      simpa using this

/-- Helper: every exceedance indicator lies in `[0,1]`. -/
theorem exceedIndicator_mem_unit (T x : ℚ) :
    0 ≤ exceedIndicator T x ∧ exceedIndicator T x ≤ 1 := by
  unfold exceedIndicator
  split <;> norm_num

/-- C2: for a non-empty forecast horizon whose rows each hold `N`
samples, the per-day exceedance probability equals the fraction of that
day's `N` samples exceeding the threshold and lies in `[0,1]`; the
pooled probability is the mean over all day × sample cells — equal to
the total exceed count over `days · N` — and lies in `[0,1]`; and with
an empty horizon the pooled probability is reported as not-a-number
(modelled as `none`). -/
theorem exceedance_probability_bounds (T : ℚ) (sims : List (List ℚ)) (N : Nat)
    (hN : 0 < N) (hrows : ∀ row ∈ sims, row.length = N) :
    (∀ row ∈ sims,
      probPerDay T row = (row.countP (fun x => decide (T < x)) : ℚ) / (N : ℚ) ∧
      0 ≤ probPerDay T row ∧ probPerDay T row ≤ 1) ∧
    overallProbOf T sims =
      (((sims.map (fun row => row.countP (fun x => decide (T < x)))).sum : ℕ) : ℚ) /
        ((sims.length * N : ℕ) : ℚ) ∧
    0 ≤ overallProbOf T sims ∧ overallProbOf T sims ≤ 1 ∧
    (0 < sims.length → overall_prob_guarded T sims = some (overallProbOf T sims)) ∧
    overall_prob_guarded T ([] : List (List ℚ)) = none := by
  have hmem : ∀ (row : List ℚ), ∀ y ∈ row.map (exceedIndicator T), 0 ≤ y ∧ y ≤ 1 := by
    intro row y hy
    rcases List.mem_map.mp hy with ⟨x, _, rfl⟩
    exact exceedIndicator_mem_unit T x
  refine ⟨?_, ?_, ?_, ?_, ?_, rfl⟩
  · intro row hrow
    refine ⟨?_, listMean_mem_unit _ (hmem row)⟩
    unfold probPerDay listMean
    rw [sum_exceedIndicator, List.length_map, hrows row hrow]
  · unfold overallProbOf listMean
    rw [sum_exceedIndicator, List.length_map]
    congr 1
    · have h1 : sims.flatten.countP (fun x => decide (T < x)) =
          (sims.map (fun row => row.countP (fun x => decide (T < x)))).sum := by
        rw [List.countP_flatten]
      exact_mod_cast h1
    · have h2 : sims.flatten.length = sims.length * N := by
        rw [List.length_flatten]
        have hc : sims.map List.length = sims.map (fun _ => N) :=
          List.map_congr_left hrows
        rw [hc]
        simp [List.map_const', List.sum_replicate, Nat.mul_comm]
      exact_mod_cast h2
  · exact (listMean_mem_unit _ (hmem sims.flatten)).1
  · exact (listMean_mem_unit _ (hmem sims.flatten)).2
  · intro hlen
    unfold overall_prob_guarded
    rw [if_pos hlen]

/-- Witness for C2: the theorem applied to one forecast day with the two
samples `[1, -1]` and threshold `0`, giving per-day and pooled
probability `1/2`. -/
theorem exceedance_probability_bounds_witness :
    probPerDay 0 [1, -1] = (([(1 : ℚ), -1].countP (fun x => decide ((0 : ℚ) < x))) : ℚ) / (2 : ℚ) ∧
    0 ≤ overallProbOf 0 [[1, -1]] ∧ overallProbOf 0 [[1, -1]] ≤ 1 := by
  have h := exceedance_probability_bounds 0 [[1, -1]] 2 (by norm_num)
    (by intro row hr; rw [List.mem_singleton] at hr; subst hr; rfl)
  exact ⟨(h.1 [1, -1] (by simp)).1, h.2.2.1, h.2.2.2.1⟩

/-- C7 (amended): whenever both the recent-forecast variance and the
climatology prior variance are positive, the weight on the prior equals
`clamp(v_f / (v_f + v_p), 0.3, 0.9)`, hence lies in `[0.3, 0.9]`, and
the adjusted precipitation equals `max(0, w·p + (1−w)·f)`: it equals the
blend `w·p + (1−w)·f` exactly when that blend is non-negative (the final
floor makes a negative blend display as `0`). -/
theorem shrinkage_weight_blend_floor (vf vp f p : ℚ) (hvf : 0 < vf) (hvp : 0 < vp) :
    weight_prior (some vf) (some vp) = some (clamp_weight (vf / (vf + vp))) ∧
    3 / 10 ≤ clamp_weight (vf / (vf + vp)) ∧ clamp_weight (vf / (vf + vp)) ≤ 9 / 10 ∧
    adjusted_prec_of (some f) (some vf) (some p) (some vp) =
      some (if clamp_weight (vf / (vf + vp)) * p + (1 - clamp_weight (vf / (vf + vp))) * f < 0
        then 0
        else clamp_weight (vf / (vf + vp)) * p + (1 - clamp_weight (vf / (vf + vp))) * f) ∧
    (0 ≤ clamp_weight (vf / (vf + vp)) * p + (1 - clamp_weight (vf / (vf + vp))) * f →
      adjusted_prec_of (some f) (some vf) (some p) (some vp) =
        some (clamp_weight (vf / (vf + vp)) * p + (1 - clamp_weight (vf / (vf + vp))) * f)) := by
  have hw0 : weight_prior (some vf) (some vp) =
      if 0 < vf ∧ 0 < vp then some (clamp_weight (vf / (vf + vp))) else none := rfl
  have hw : weight_prior (some vf) (some vp) = some (clamp_weight (vf / (vf + vp))) := by
    rw [hw0, if_pos ⟨hvf, hvp⟩]
  have hlo : 3 / 10 ≤ clamp_weight (vf / (vf + vp)) := le_max_left _ _
  have hhi : clamp_weight (vf / (vf + vp)) ≤ 9 / 10 :=
    max_le (by norm_num) (min_le_left _ _)
  have hadj : adjusted_prec_of (some f) (some vf) (some p) (some vp) =
      some (if clamp_weight (vf / (vf + vp)) * p + (1 - clamp_weight (vf / (vf + vp))) * f < 0
        then 0
        else clamp_weight (vf / (vf + vp)) * p + (1 - clamp_weight (vf / (vf + vp))) * f) := by
    unfold adjusted_prec_of
    rw [hw]
  refine ⟨hw, hlo, hhi, hadj, ?_⟩
  intro hblend
  rw [hadj, if_neg (not_lt.mpr hblend)]

/-- Witness for C7 (amended): the theorem at `v_f = v_p = 1`, `f = 2`,
`p = 4`, where the clamped weight is `1/2`, the blend `3` is
non-negative, and the adjusted value equals the blend. -/
theorem shrinkage_weight_blend_floor_witness :
    adjusted_prec_of (some 2) (some 1) (some 4) (some 1) =
      some (clamp_weight (1 / (1 + 1)) * 4 + (1 - clamp_weight (1 / (1 + 1))) * 2) :=
  (shrinkage_weight_blend_floor 1 1 2 4 (by norm_num) (by norm_num)).2.2.2.2
    (by norm_num [clamp_weight, min_def, max_def])

/-- C7 counterexample: with `v_f = v_p = 1` (weight `1/2`), the negative
forecast `f = −2` and prior mean `p = −4` (values in `(−900, 0)` pass
the sentinel filter) give blend `−3`, but the code's final floor makes
the adjusted value `0`, not `w·p + (1−w)·f`. -/
theorem shrinkage_blend_floored_counterexample :
    weight_prior (some 1) (some 1) = some (clamp_weight (1 / (1 + 1))) ∧
    clamp_weight ((1 : ℚ) / (1 + 1)) = 1 / 2 ∧
    (1 / 2 : ℚ) * (-4) + (1 - 1 / 2) * (-2) = -3 ∧
    adjusted_prec_of (some (-2)) (some 1) (some (-4)) (some 1) = some 0 ∧
    adjusted_prec_of (some (-2)) (some 1) (some (-4)) (some 1) ≠
      some ((1 / 2 : ℚ) * (-4) + (1 - 1 / 2) * (-2)) := by
  refine ⟨?_, ?_, ?_, ?_, ?_⟩ <;>
    norm_num [weight_prior, clamp_weight, adjusted_prec_of, min_def, max_def]

/-- C8 (amended): every produced display precipitation value is
non-negative; and when both climatology quartile bounds exist the value
lies within `[min(p25,p75), max(p25,p75)]` provided the upper bound is
non-negative (as it is for genuine precipitation statistics) — the final
`max(0, ·)` floor can push the value above the interval when both
quantiles are negative. -/
theorem display_prec_bounds (statsPrec : Option HistStats) (histAvg basePrec : Option ℚ)
    (v : ℚ) (hv : display_prec_of basePrec statsPrec histAvg = some v) :
    0 ≤ v ∧
    ∀ st, statsPrec = some st → 0 ≤ max st.p25 st.p75 →
      min st.p25 st.p75 ≤ v ∧ v ≤ max st.p25 st.p75 := by
  cases basePrec with
  | none => simp [display_prec_of] at hv
  | some bp =>
    cases statsPrec with
    | some st =>
      have hv0 : display_prec_of (some bp) (some st) histAvg =
          some (max 0 (min (max bp (min st.p25 st.p75)) (max st.p25 st.p75))) := rfl
      rw [hv0, Option.some_inj] at hv
      subst hv
      refine ⟨le_max_left 0 _, ?_⟩
      intro st2 hst2 hhi
      have hst : st2 = st := by
        injection hst2 with h
        exact h.symm
      subst hst
      have hx1 : min st2.p25 st2.p75 ≤ min (max bp (min st2.p25 st2.p75)) (max st2.p25 st2.p75) :=
        le_min (le_max_right _ _) min_le_max
      have hx2 : min (max bp (min st2.p25 st2.p75)) (max st2.p25 st2.p75) ≤ max st2.p25 st2.p75 :=
        min_le_right _ _
      exact ⟨le_trans hx1 (le_max_right 0 _), max_le hhi hx2⟩
    | none =>
      cases histAvg with
      | some avg =>
        have hv0 : display_prec_of (some bp) none (some avg) =
            some (max 0 (min (max bp 0) avg)) := rfl
        rw [hv0, Option.some_inj] at hv
        subst hv
        exact ⟨le_max_left 0 _, fun st2 hst2 => by cases hst2⟩
      | none =>
        have hv0 : display_prec_of (some bp) none none = some (max 0 bp) := rfl
        rw [hv0, Option.some_inj] at hv
        subst hv
        exact ⟨le_max_left 0 _, fun st2 hst2 => by cases hst2⟩

/-- Witness for C8 (amended): the theorem applied with quartile bounds
`p25 = p75 = 2` and base value `3`, yielding display value `2` inside
the interval. -/
theorem display_prec_bounds_witness :
    0 ≤ (2 : ℚ) ∧ min (2 : ℚ) 2 ≤ 2 ∧ (2 : ℚ) ≤ max (2 : ℚ) 2 := by
  have h := display_prec_bounds (some ⟨1, 2, 2, 2, [2]⟩) none (some 3) 2
    (by norm_num [display_prec_of, min_def, max_def])
  exact ⟨h.1, (h.2 ⟨1, 2, 2, 2, [2]⟩ rfl (by norm_num)).1,
    (h.2 ⟨1, 2, 2, 2, [2]⟩ rfl (by norm_num)).2⟩

/-- C8 counterexample: with the reachable statistics of the day-window
sample `[-1]` (so `p25 = p75 = −1`), base value `5` produces display
value `0`, which lies outside `[min(p25,p75), max(p25,p75)] = [−1,−1]`. -/
theorem display_prec_outside_interval :
    hist_stats_from_array [-1] = some ⟨1, -1, -1, -1, [-1]⟩ ∧
    display_prec_of (some 5) (some ⟨1, -1, -1, -1, [-1]⟩) none = some 0 ∧
    ¬(min (-1 : ℚ) (-1) ≤ 0 ∧ (0 : ℚ) ≤ max (-1 : ℚ) (-1)) := by
  refine ⟨?_, ?_, ?_⟩
  · norm_num [hist_stats_from_array, percentile, top5, List.insertionSort,
      List.orderedInsert]
  · norm_num [display_prec_of, min_def, max_def]
  · norm_num [min_def, max_def]

/-- C9 (amended): an empty climatology day-window sample yields a `None`
statistics entry; but the blended value falls back to the raw forecast
unmodified only when the full series is also empty — otherwise the prior
mean falls back to the full-series mean and the Bayesian shrink still
modifies the forecast. -/
theorem empty_climatology_fallback (df : List ℚ) :
    hist_stats_from_array ([] : List ℚ) = none ∧
    prior_mean_prec_of (hist_stats_from_array []) (hist_avg_prec_of [] df) =
      (if df.length ≠ 0 then some (listMean df) else none) ∧
    (df = [] → adjusted_prec_pipeline [] df = forecast_prec_of df) := by
  refine ⟨rfl, ?_, ?_⟩
  · simp [prior_mean_prec_of, hist_stats_from_array, hist_avg_prec_of]
  · rintro rfl
    rfl

/-- Witness for C9 (amended): the theorem applied at the empty series. -/
theorem empty_climatology_fallback_witness :
    adjusted_prec_pipeline [] [] = forecast_prec_of [] :=
  (empty_climatology_fallback []).2.2 rfl

/-- C9 counterexample: with an empty day-window sample but the non-empty
series `[100, 0, 0, 0, 0, 0, 0, 0]`, the raw forecast (mean of the last
7 values) is `0` while the blended value is `15625/1251` — the full
series mean becomes the prior and the shrink modifies the forecast. -/
theorem empty_climatology_blend_changes :
    adjusted_prec_pipeline [] [100, 0, 0, 0, 0, 0, 0, 0] = some (15625 / 1251) ∧
    forecast_prec_of [100, 0, 0, 0, 0, 0, 0, 0] = some 0 ∧
    adjusted_prec_pipeline [] [100, 0, 0, 0, 0, 0, 0, 0] ≠
      forecast_prec_of [100, 0, 0, 0, 0, 0, 0, 0] := by
  refine ⟨?_, ?_, ?_⟩ <;>
    norm_num [adjusted_prec_pipeline, adjusted_prec_of, compute_shrunk, weight_prior,
      forecast_prec_of, recent_prec_var_of, prior_mean_prec_of, prior_prec_var_of,
      hist_avg_prec_of, hist_stats_from_array, tailK, sampleVar, listMean]

/-- Helper: a daily date range of `n + 1` periods is its start followed
by the range starting one day later. -/
theorem dateRange_cons (s : ℤ) (n : Nat) : dateRange s (n + 1) = s :: dateRange (s + 1) n := by
  unfold dateRange
  rw [List.range_succ_eq_map, List.map_cons, List.map_map]
  congr 1
  · simp
  · exact List.map_congr_left (fun i _ => by simp only [Function.comp_apply]; push_cast; ring)

/-- Helper: consecutive dates in a daily date range differ by exactly
one day. -/
theorem dateRange_chain (s : ℤ) (n : Nat) :
    List.Chain' (fun a b => b = a + 1) (dateRange s n) := by
  induction n generalizing s with
  | zero => exact List.chain'_nil
  | succ m ih =>
    rw [dateRange_cons]
    cases m with
    | zero => simp [dateRange]
    | succ k =>
      rw [dateRange_cons]
      exact List.chain'_cons.mpr ⟨rfl, by rw [← dateRange_cons]; exact ih (s + 1)⟩

/-- Helper: the dates produced by the iterative-forecast loop starting
at step counter `step` form the daily range from `lastDate + step`. -/
theorem iterGo_dates (model : List ℚ → ℚ) (targetIdx : Nat) (lastDate : ℤ) (lags : Nat) :
    ∀ (rem step : Nat) (cols : List (List ℚ)),
      (iterGo model targetIdx lastDate lags cols step rem).map Prod.fst =
        dateRange (lastDate + (step : ℤ)) rem := by
  intro rem
  induction rem with
  | zero => intro step cols; rfl
  | succ r ih =>
    intro step cols
    rw [iterGo, List.map_cons, ih (step + 1), dateRange_cons]
    have : lastDate + ((step + 1 : ℕ) : ℤ) = lastDate + (step : ℤ) + 1 := by
      push_cast; ring
    rw [this]

/-- Helper: slicing Prophet's fitted-plus-future index at exactly the
day after the last historical date returns precisely the future dates. -/
theorem prophet_dates_at_hist_end (histDates : List ℤ) (lastDate : ℤ) (steps : Nat)
    (hhist : ∀ d ∈ histDates, d ≤ lastDate) :
    forecast_prophet_dates histDates lastDate (lastDate + 1) steps =
      dateRange (lastDate + 1) steps := by
  unfold forecast_prophet_dates make_future_dates
  rw [List.filter_append]
  have h1 : histDates.filter
      (fun d => decide (lastDate + 1 ≤ d ∧ d ≤ lastDate + 1 + (steps : ℤ) - 1)) = [] := by
    rw [List.filter_eq_nil_iff]
    intro d hd
    have := hhist d hd
    simp only [decide_eq_true_eq, not_and]
    intro hge
    omega
  have h2 : ((List.range steps).map (fun (i : Nat) => lastDate + 1 + (i : ℤ))).filter
      (fun d => decide (lastDate + 1 ≤ d ∧ d ≤ lastDate + 1 + (steps : ℤ) - 1)) =
      (List.range steps).map (fun (i : Nat) => lastDate + 1 + (i : ℤ)) := by
    rw [List.filter_eq_self]
    intro d hd
    rcases List.mem_map.mp hd with ⟨i, hi, rfl⟩
    have hilt : i < steps := List.mem_range.mp hi
    simp only [decide_eq_true_eq]
    omega
  rw [h1, h2, List.nil_append]
  rfl

/-- C1 (amended): with horizon `steps ≥ 1`, the forecast path has
exactly `steps` entries with strictly increasing, contiguous daily dates
starting at `forecast_start` on the SARIMAX path (any start) and on the
multivariate iterative path (start = day after the last historical
date); on the Prophet fallback path this holds when the start is the day
after the last historical date, but an override start can make the
sliced path shorter (see the counterexample). -/
theorem forecast_horizon_dates (pm pl pu : Nat → ℚ) (startDate : ℤ) (steps : Nat)
    (model : List ℚ → ℚ) (cols : List (List ℚ)) (targetIdx : Nat) (lastDate : ℤ)
    (lags : Nat) (histDates : List ℤ)
    (hhist : ∀ d ∈ histDates, d ≤ lastDate) (hsteps : 1 ≤ steps) :
    (forecast_sarimax pm pl pu startDate steps).length = steps ∧
    (forecast_sarimax pm pl pu startDate steps).map ForecastPoint.date =
      dateRange startDate steps ∧
    (iterative_forecast model cols targetIdx lastDate steps lags).length = steps ∧
    (iterative_forecast model cols targetIdx lastDate steps lags).map Prod.fst =
      dateRange (lastDate + 1) steps ∧
    forecast_prophet_dates histDates lastDate (lastDate + 1) steps =
      dateRange (lastDate + 1) steps ∧
    List.Chain' (fun a b => b = a + 1) (dateRange startDate steps) ∧
    (dateRange startDate steps).head? = some startDate := by
  have hiter : (iterative_forecast model cols targetIdx lastDate steps lags).map Prod.fst =
      dateRange (lastDate + 1) steps := by
    unfold iterative_forecast
    rw [iterGo_dates]
    norm_num
  refine ⟨?_, ?_, ?_, hiter, prophet_dates_at_hist_end histDates lastDate steps hhist,
    dateRange_chain startDate steps, ?_⟩
  · unfold forecast_sarimax
    rw [List.length_map, List.length_range]
  · unfold forecast_sarimax dateRange
    rw [List.map_map]
    rfl
  · have := congrArg List.length hiter
    rw [List.length_map] at this
    rw [this]
    unfold dateRange
    rw [List.length_map, List.length_range]
  · obtain ⟨k, rfl⟩ : ∃ k, steps = k + 1 := ⟨steps - 1, by omega⟩
    rw [dateRange_cons]
    rfl

/-- Witness for C1 (amended): the theorem applied with three historical
days `[0, 1, 2]` (last date 2) and a 3-day horizon starting at date 3. -/
theorem forecast_horizon_dates_witness :
    forecast_prophet_dates [0, 1, 2] 2 (2 + 1) 3 = dateRange (2 + 1) 3 ∧
    (dateRange 3 3).head? = some 3 :=
  ⟨(forecast_horizon_dates (fun _ => 0) (fun _ => 0) (fun _ => 0) 3 3 (fun _ => 0) []
      0 2 7 [0, 1, 2] (by intro d hd; fin_cases hd <;> norm_num) (by norm_num)).2.2.2.2.1,
    (forecast_horizon_dates (fun _ => 0) (fun _ => 0) (fun _ => 0) 3 3 (fun _ => 0) []
      0 2 7 [0, 1, 2] (by intro d hd; fin_cases hd <;> norm_num) (by norm_num)).2.2.2.2.2.2⟩

/-- C1 counterexample: on the Prophet fallback path with history
`[0, 1, 2]` (last date 2), an override start date 20 and a 5-day
horizon, the sliced path is empty instead of having 5 entries. -/
theorem prophet_override_short_path :
    forecast_prophet_dates [0, 1, 2] 2 20 5 = [] ∧
    (forecast_prophet_dates [0, 1, 2] 2 20 5).length ≠ 5 := by
  have h : forecast_prophet_dates [0, 1, 2] 2 20 5 = [] := by
    norm_num [forecast_prophet_dates, make_future_dates, List.filter]
  exact ⟨h, by rw [h]; norm_num⟩
